import Mathlib

/-!
Verification of the customer-service MCP app's ticket pipeline against its
source (`config.ts` and `server.ts`): the configuration resolver, the input
schema builder, the ticket composer, the delivery dispatcher and the tool
endpoint, embedded shallowly, with JavaScript string/object semantics made
explicit (truthiness, `undefined` coercion, first-occurrence `replace`,
object-key overwrite, spread merge).
-/

namespace CustomerService

/-! ## JavaScript string semantics -/

/-- Coercion of a possibly-`undefined` string value as a JS template literal
prints it (`undefined` becomes the text "undefined"). -/
def jsStr : Option String → String
  | some s => s
  | none => "undefined"

/-- JS truthiness of a possibly-`undefined` string value: `undefined` and the
empty string are falsy, every other string truthy. -/
def jsTruthy : Option String → Bool
  | some s => !s.isEmpty
  | none => false

/-- Whether `pat` occurs as a contiguous run inside `s` (over character lists). -/
def containsAux (pat : List Char) : List Char → Bool
  | [] => pat.isEmpty
  | c :: t => pat.isPrefixOf (c :: t) || containsAux pat t

/-- Substring test: does `pat` occur inside `s`? -/
def strContains (s pat : String) : Bool := containsAux pat.data s.data

/-- Position of the first occurrence of `pat` in `s`, if any. -/
def firstMatchPos (pat : List Char) : List Char → Option Nat
  | [] => if pat.isEmpty then some 0 else none
  | c :: t =>
    if pat.isPrefixOf (c :: t) then some 0
    else (firstMatchPos pat t).map (· + 1)

/-- The backquote character, U+0060. -/
def backquoteChar : Char := Char.ofNat 96

/-- The apostrophe character, U+0027. -/
def apostropheChar : Char := Char.ofNat 39

/-- ECMAScript GetSubstitution as `String.prototype.replace` applies it to a
string replacement argument when the pattern is a string (no capture groups,
no named captures): in the replacement, `$$` inserts a dollar sign, `$&` the
matched substring (the pattern itself), a dollar followed by a backquote the
portion of the subject before the match, a dollar followed by an apostrophe
the portion after the match; any other use of the dollar sign is literal
(with zero captures, forms such as a dollar before a digit stay verbatim). -/
def getSubstitution (matched pre post : List Char) : List Char → List Char
  | [] => []
  | c :: rest =>
    if c = '$' then
      match rest with
      | [] => [c]
      | d :: rest2 =>
        if d = '$' then d :: getSubstitution matched pre post rest2
        else if d = '&' then matched ++ getSubstitution matched pre post rest2
        else if d = backquoteChar then pre ++ getSubstitution matched pre post rest2
        else if d = apostropheChar then post ++ getSubstitution matched pre post rest2
        else c :: d :: getSubstitution matched pre post rest2
    else c :: getSubstitution matched pre post rest

/-- JS `String.prototype.replace` with a string pattern over character lists:
only the first occurrence of `pat` is replaced — the remainder is not scanned
again — and the replacement text is `rep` processed by `getSubstitution`,
with `pre` the subject text already scanned (the portion before the match)
and the unscanned tail after the match as the post-match portion. -/
def replaceFirstAux (pat rep pre : List Char) : List Char → List Char
  | [] =>
    if pat.isPrefixOf ([] : List Char) then getSubstitution pat pre [] rep else []
  | c :: t =>
    if pat.isPrefixOf (c :: t) then
      getSubstitution pat pre ((c :: t).drop pat.length) rep ++ (c :: t).drop pat.length
    else c :: replaceFirstAux pat rep (pre ++ [c]) t

/-- JS `s.replace(pat, rep)` for a string `pat`: first occurrence only, with
GetSubstitution applied to the replacement. -/
def jsReplaceFirst (s pat rep : String) : String :=
  String.mk (replaceFirstAux pat.data rep.data [] s.data)

/-! ## Data model (config.ts interfaces) -/

/-- `FieldConfig.type` in config.ts. -/
inductive FieldType
  | text
  | email
  | tel
  | textarea
  | select
  deriving DecidableEq

/-- The `auth` pair of `SmtpConfig`. -/
structure SmtpAuth where
  user : String
  pass : String
  deriving DecidableEq

/-- config.ts `SmtpConfig`. -/
structure SmtpConfig where
  host : String
  port : Nat
  secure : Bool
  auth : SmtpAuth
  deriving DecidableEq

/-- config.ts `BrandConfig`. -/
structure BrandConfig where
  name : String
  primaryColor : String
  secondaryColor : String
  logoUrl : Option String := none
  tagline : String
  deriving DecidableEq

/-- config.ts `FieldConfig` (one custom form field). -/
structure FieldConfig where
  key : String
  label : String
  type : FieldType
  placeholder : String
  required : Bool
  options : Option (List String) := none
  deriving DecidableEq

/-- config.ts `AppConfig` (the EffectiveConfig of the spec). -/
structure AppConfig where
  brand : BrandConfig
  smtp : SmtpConfig
  supportEmail : String
  emailSubjectTemplate : String
  customFields : List FieldConfig
  priorities : List String
  categories : List String
  deriving DecidableEq

/-- config.ts `defaultConfig`, with every `process.env` variable unset so that
each `process.env.X ?? d` falls back to its literal default. -/
def defaultConfig : AppConfig := {
  brand := {
    name := "Customer Support"
    primaryColor := "#2563eb"
    secondaryColor := "#1e40af"
    tagline := "We\x27re here to help" }
  smtp := {
    host := "smtp.gmail.com"
    port := 587
    secure := false
    auth := { user := "", pass := "" } }
  supportEmail := "support@example.com"
  emailSubjectTemplate := "Support Request from \x7b\x7bname\x7d\x7d: \x7b\x7bissue\x7d\x7d"
  customFields := [{
    key := "email"
    label := "Email Address"
    type := FieldType.email
    placeholder := "you@example.com"
    required := false }]
  priorities := ["Low", "Medium", "High", "Urgent"]
  categories := ["General Inquiry", "Technical Support", "Billing", "Feature Request", "Bug Report"] }

/-! ## Config Resolver (config.ts createConfig)

A `Partial<AppConfig>` override: a key is `none` when absent from the
override object.  The nested `brand`/`smtp` overrides are themselves partial,
as is the `auth` pair one level deeper. -/

/-- Partial override of `BrandConfig`. -/
structure BrandOverride where
  name : Option String := none
  primaryColor : Option String := none
  secondaryColor : Option String := none
  logoUrl : Option String := none
  tagline : Option String := none
  deriving DecidableEq

/-- Partial override of the `auth` credential pair. -/
structure AuthOverride where
  user : Option String := none
  pass : Option String := none
  deriving DecidableEq

/-- Partial override of `SmtpConfig`. -/
structure SmtpOverride where
  host : Option String := none
  port : Option Nat := none
  secure : Option Bool := none
  auth : Option AuthOverride := none
  deriving DecidableEq

/-- `Partial<AppConfig>` as accepted by `createConfig`. -/
structure ConfigOverrides where
  brand : Option BrandOverride := none
  smtp : Option SmtpOverride := none
  supportEmail : Option String := none
  emailSubjectTemplate : Option String := none
  customFields : Option (List FieldConfig) := none
  priorities : Option (List String) := none
  categories : Option (List String) := none
  deriving DecidableEq

/-- config.ts `createConfig`, with the module-level default passed explicitly
as `d`.  Mirrors the JS object spreads: `{...d, ...o}` makes a top-level key
present in the override replace the default wholesale, while the explicit
`brand`, `smtp` and `smtp.auth` entries merge key-by-key (`{...d.brand,
...o.brand}` and so on), and `customFields` / `priorities` / `categories`
fall back with `??`. -/
def mergeConfig (d : AppConfig) (o : ConfigOverrides) : AppConfig := {
  brand := {
    name := (o.brand.bind BrandOverride.name).getD d.brand.name
    primaryColor := (o.brand.bind BrandOverride.primaryColor).getD d.brand.primaryColor
    secondaryColor := (o.brand.bind BrandOverride.secondaryColor).getD d.brand.secondaryColor
    logoUrl := (o.brand.bind BrandOverride.logoUrl) <|> d.brand.logoUrl
    tagline := (o.brand.bind BrandOverride.tagline).getD d.brand.tagline }
  smtp := {
    host := (o.smtp.bind SmtpOverride.host).getD d.smtp.host
    port := (o.smtp.bind SmtpOverride.port).getD d.smtp.port
    secure := (o.smtp.bind SmtpOverride.secure).getD d.smtp.secure
    auth := {
      user := ((o.smtp.bind SmtpOverride.auth).bind AuthOverride.user).getD d.smtp.auth.user
      pass := ((o.smtp.bind SmtpOverride.auth).bind AuthOverride.pass).getD d.smtp.auth.pass } }
  supportEmail := o.supportEmail.getD d.supportEmail
  emailSubjectTemplate := o.emailSubjectTemplate.getD d.emailSubjectTemplate
  customFields := o.customFields.getD d.customFields
  priorities := o.priorities.getD d.priorities
  categories := o.categories.getD d.categories }

/-- config.ts `createConfig` applied to the built-in default. -/
def createConfig (o : ConfigOverrides) : AppConfig := mergeConfig defaultConfig o

/-! ## Schema Builder (server.ts buildInputSchema) -/

/-- One entry of the Zod shape: `z.string()` is required, `.optional()` not,
`.describe` sets the description. -/
structure FieldSchema where
  required : Bool
  description : String
  deriving DecidableEq

/-- One JS object-property assignment `shape[k] = v`: if the key already
exists its value is updated in place, otherwise the entry is appended. -/
def shapeSet (m : List (String × FieldSchema)) (k : String) (v : FieldSchema) :
    List (String × FieldSchema) :=
  if m.any (fun p => p.1 == k) then
    m.map (fun p => if p.1 == k then (k, v) else p)
  else m ++ [(k, v)]

/-- server.ts `buildInputSchema`: the four fixed entries, then one assignment
per custom field (which can overwrite a fixed entry when keys collide). -/
def buildInputSchema (config : AppConfig) : List (String × FieldSchema) :=
  let shape : List (String × FieldSchema) := [
    ("name", { required := true, description := "Full name of the customer" }),
    ("issue", { required := true, description := "Description of the customer\x27s issue" }),
    ("priority", { required := false, description := "Ticket priority level (" ++ String.intercalate ", " config.priorities ++ ")" }),
    ("category", { required := false, description := "Issue category (" ++ String.intercalate ", " config.categories ++ ")" })]
  config.customFields.foldl
    (fun m f => shapeSet m f.key { required := f.required, description := f.label }) shape

/-! ## Ticket Composer (server.ts buildEmailBody and the subject line) -/

/-- A ticket submission, a JS `Record<string, string>` read by plain indexing:
a missing key reads as `undefined`, i.e. `none`. -/
def TicketInput := String → Option String

/-- The literal subject-template token `{{name}}`. -/
def nameToken : String := "\x7b\x7bname\x7d\x7d"

/-- The literal subject-template token `{{issue}}`. -/
def issueToken : String := "\x7b\x7bissue\x7d\x7d"

/-- server.ts subject computation:
`template.replace("{{name}}", name).replace("{{issue}}", issue)`. -/
def renderSubject (template name issue : String) : String :=
  jsReplaceFirst (jsReplaceFirst template nameToken name) issueToken issue

/-- server.ts `buildEmailBody` before the final `join("\n")`: the `lines`
array as the code pushes into it. -/
def buildEmailBodyLines (fields : TicketInput) (config : AppConfig) : List String :=
  let lines : List String := [
    "New support ticket received via " ++ config.brand.name,
    "",
    "--- Ticket Details ---",
    "",
    "Name: " ++ jsStr (fields "name"),
    "Issue: " ++ jsStr (fields "issue")]
  let lines := if jsTruthy (fields "priority") then
    lines ++ ["Priority: " ++ jsStr (fields "priority")] else lines
  let lines := if jsTruthy (fields "category") then
    lines ++ ["Category: " ++ jsStr (fields "category")] else lines
  let lines := config.customFields.foldl
    (fun acc f =>
      if jsTruthy (fields f.key) then acc ++ [f.label ++ ": " ++ jsStr (fields f.key)]
      else acc)
    lines
  lines ++ ["", "--- End of Ticket ---"]

/-- server.ts `buildEmailBody`. -/
def buildEmailBody (fields : TicketInput) (config : AppConfig) : String :=
  String.intercalate "\n" (buildEmailBodyLines fields config)

/-- The line an optional labelled value contributes to the body, as the spec
states it: present (truthy) values yield one `Label: value` line, absent or
empty values none. -/
def optLine (label : String) (v : Option String) : List String :=
  if jsTruthy v then [label ++ ": " ++ jsStr v] else []

/-- The custom-field section of the body, as the spec states it: one line per
declared custom field whose value is present, in declared order. -/
def customFieldLines (fields : TicketInput) (config : AppConfig) : List String :=
  (config.customFields.map (fun f => optLine f.label (fields f.key))).flatten

/-- The body-line structure as the spec's Ticket Composer contract states it:
header, separator, name, issue, optional priority, optional category, the
custom-field section, closing separator. -/
def bodyLinesSpec (fields : TicketInput) (config : AppConfig) : List String :=
  ["New support ticket received via " ++ config.brand.name,
   "",
   "--- Ticket Details ---",
   "",
   "Name: " ++ jsStr (fields "name"),
   "Issue: " ++ jsStr (fields "issue")]
  ++ optLine "Priority" (fields "priority")
  ++ optLine "Category" (fields "category")
  ++ customFieldLines fields config
  ++ ["", "--- End of Ticket ---"]

/-! ## Delivery Dispatcher (server.ts sendSupportEmail) -/

/-- The argument of `nodemailer.createTransport`. -/
structure TransportConfig where
  host : String
  port : Nat
  secure : Bool
  auth : SmtpAuth
  deriving DecidableEq

/-- The argument of `transporter.sendMail`.  `fromAddr` and `toAddr` model
the `from` and `to` properties (both are Lean keywords). -/
structure MailMessage where
  fromAddr : String
  toAddr : String
  subject : String
  text : String
  replyTo : Option String
  deriving DecidableEq

/-- The SMTP transport: given the transport configuration and a message,
either deliver (`ok`) or raise, carrying the thrown error's message. -/
def Transport := TransportConfig → MailMessage → Except String Unit

/-- The `{ success, message }` result of `sendSupportEmail`. -/
structure DeliveryOutcome where
  success : Bool
  message : String
  deriving DecidableEq

/-- The observable effects of one `sendSupportEmail` call: the lines written
with `console.log`, and the `sendMail` invocations made. -/
structure EffectTrace where
  consoleLines : List String
  sends : List (TransportConfig × MailMessage)
  deriving DecidableEq

/-- The transport endpoint `sendSupportEmail` configures, straight from
`config.smtp`. -/
def transportConfigOf (config : AppConfig) : TransportConfig :=
  { host := config.smtp.host
    port := config.smtp.port
    secure := config.smtp.secure
    auth := config.smtp.auth }

/-- The message `sendSupportEmail` passes to `sendMail`:
`from` the credential user, `to` the configured recipient, the rendered
subject and body, and `replyTo: fields.email || undefined`. -/
def messageOf (fields : TicketInput) (config : AppConfig) : MailMessage :=
  { fromAddr := config.smtp.auth.user
    toAddr := config.supportEmail
    subject := renderSubject config.emailSubjectTemplate (jsStr (fields "name")) (jsStr (fields "issue"))
    text := buildEmailBody fields config
    replyTo := if jsTruthy (fields "email") then fields "email" else none }

/-- The five `console.log` lines of the unconfigured-delivery preview. -/
def previewLines (fields : TicketInput) (config : AppConfig) : List String :=
  ["=== EMAIL PREVIEW (SMTP not configured) ===",
   "To: " ++ config.supportEmail,
   "Subject: " ++ renderSubject config.emailSubjectTemplate (jsStr (fields "name")) (jsStr (fields "issue")),
   buildEmailBody fields config,
   "============================================"]

/-- The fixed success message of the unconfigured path. -/
def recordedMessage : String :=
  "Ticket recorded (email preview logged — configure SMTP credentials to enable delivery)."

/-- The fixed success message of a configured, successful delivery. -/
def sentMessage : String := "Support ticket sent successfully."

/-- server.ts `sendSupportEmail`: with an unconfigured credential pair
(either half falsy) it logs the preview and succeeds without sending; with
credentials it makes exactly one `sendMail` call, succeeding or re-raising
the transport error (`Except.error`). -/
def sendSupportEmail (transport : Transport) (fields : TicketInput) (config : AppConfig) :
    EffectTrace × Except String DeliveryOutcome :=
  if config.smtp.auth.user.isEmpty || config.smtp.auth.pass.isEmpty then
    ({ consoleLines := previewLines fields config, sends := [] },
     Except.ok { success := true, message := recordedMessage })
  else
    match transport (transportConfigOf config) (messageOf fields config) with
    | Except.ok _ =>
      ({ consoleLines := [], sends := [(transportConfigOf config, messageOf fields config)] },
       Except.ok { success := true, message := sentMessage })
    | Except.error e =>
      ({ consoleLines := [], sends := [(transportConfigOf config, messageOf fields config)] },
       Except.error e)

/-! ## Ticket Endpoint (server.ts registerAppTool handler) -/

/-- The `ticket` echo inside a success payload.  `name`/`issue` stay optional
because `JSON.stringify` drops a key whose value is `undefined`. -/
structure TicketEcho where
  name : Option String
  issue : Option String
  priority : String
  category : String
  timestamp : String
  deriving DecidableEq

/-- The JSON payload the handler serialises into the text content. -/
structure ToolPayload where
  status : String
  message : String
  ticket : Option TicketEcho
  deriving DecidableEq

/-- The handler's `CallToolResult`: the payload plus the error-envelope flag
(`isError` is only set on the catch path). -/
structure ToolResponse where
  payload : ToolPayload
  isError : Bool
  deriving DecidableEq

/-- The `customer_support` tool handler (server.ts `registerAppTool`
callback): dispatch, then on success echo the ticket with `?? "Medium"` /
`?? "General Inquiry"` defaults and the timestamp `now` (the value of
`new Date().toISOString()`); on a thrown error return an error payload with
the error's message and the `isError` flag. -/
def handleCustomerSupport (transport : Transport) (now : String) (fields : TicketInput)
    (config : AppConfig) : EffectTrace × ToolResponse :=
  match sendSupportEmail transport fields config with
  | (trace, Except.ok result) =>
    (trace,
     { payload := {
         status := if result.success then "ok" else "error"
         message := result.message
         ticket := some {
           name := fields "name"
           issue := fields "issue"
           priority := (fields "priority").getD "Medium"
           category := (fields "category").getD "General Inquiry"
           timestamp := now } }
       isError := false })
  | (trace, Except.error e) =>
    (trace,
     { payload := { status := "error", message := e, ticket := none }
       isError := true })

/-- Modelled from the spec: the server entry point that connects the MCP
transport is not among the repository's files; per the spec (§6), the
structured protocol response stream carries exactly the `ToolResponse` the
handler returns. -/
def protocolChannel (r : EffectTrace × ToolResponse) : ToolResponse := r.2

/-- Modelled from the spec: the operator-visible side channel carries exactly
the `console.log` lines, a channel distinct by construction from the protocol
response stream. -/
def operatorChannel (r : EffectTrace × ToolResponse) : List String := r.1.consoleLines

/-! ## Lemmas on first-occurrence replacement -/

theorem replaceFirstAux_of_none (pat rep : List Char) (s : List Char) (pre : List Char)
    (h : firstMatchPos pat s = none) : replaceFirstAux pat rep pre s = s := by
  induction s generalizing pre with
  | nil =>
    unfold firstMatchPos at h
    unfold replaceFirstAux
    have hpe : pat.isEmpty = false := by
      cases hb : pat.isEmpty
      · rfl
      · simp [hb] at h
    simp [List.isPrefixOf, hpe]
    cases pat with
    | nil => simp [List.isEmpty] at hpe
    | cons p ps => simp [List.isPrefixOf]
  | cons c t ih =>
    unfold firstMatchPos at h
    unfold replaceFirstAux
    by_cases hpre : pat.isPrefixOf (c :: t) = true
    · simp [hpre] at h
    · rw [Bool.not_eq_true] at hpre
      simp [hpre] at h ⊢
      exact ih _ h

theorem replaceFirstAux_of_some (pat rep : List Char) (s : List Char) (k : Nat)
    (pre : List Char) (h : firstMatchPos pat s = some k) :
    replaceFirstAux pat rep pre s =
      s.take k ++ getSubstitution pat (pre ++ s.take k) (s.drop (k + pat.length)) rep
        ++ s.drop (k + pat.length) := by
  induction s generalizing k pre with
  | nil =>
    unfold firstMatchPos at h
    unfold replaceFirstAux
    by_cases hpe : pat.isEmpty = true
    · have hk : k = 0 := by simp [hpe] at h; omega
      subst hk
      have hnil : pat = [] := by cases pat <;> simp_all [List.isEmpty]
      subst hnil
      simp [List.isPrefixOf]
    · rw [Bool.not_eq_true] at hpe
      simp [hpe] at h
  | cons c t ih =>
    unfold firstMatchPos at h
    unfold replaceFirstAux
    by_cases hpre : pat.isPrefixOf (c :: t) = true
    · simp [hpre] at h ⊢
      subst h
      simp
    · rw [Bool.not_eq_true] at hpre
      simp [hpre] at h ⊢
      rcases h with ⟨k0, hk0, hsum⟩
      subst hsum
      rw [ih k0 (pre ++ [c]) hk0]
      simp [List.take_succ_cons, List.drop_succ_cons, Nat.add_right_comm, List.append_assoc]

theorem firstMatchPos_none_iff (pat s : List Char) :
    firstMatchPos pat s = none ↔ ∀ j, pat.isPrefixOf (s.drop j) = false := by
  induction s with
  | nil =>
    unfold firstMatchPos
    constructor
    · intro h j
      by_cases hpe : pat.isEmpty = true
      · simp [hpe] at h
      · rw [Bool.not_eq_true] at hpe
        cases pat with
        | nil => simp [List.isEmpty] at hpe
        | cons p ps => simp [List.isPrefixOf]
    · intro h
      have h0 := h 0
      cases pat with
      | nil => simp [List.isPrefixOf] at h0
      | cons p ps => simp [List.isEmpty]
  | cons c t ih =>
    unfold firstMatchPos
    by_cases hpre : pat.isPrefixOf (c :: t) = true
    · constructor
      · intro h; simp [hpre] at h
      · intro h
        have h0 := h 0
        simp [hpre] at h0
    · rw [Bool.not_eq_true] at hpre
      simp only [hpre, Bool.false_eq_true, if_false]
      constructor
      · intro h j
        have ht : firstMatchPos pat t = none := by
          cases hmp : firstMatchPos pat t
          · rfl
          · rw [hmp] at h; simp at h
        cases j with
        | zero => simpa using hpre
        | succ j0 => simpa using (ih.mp ht) j0
      · intro h
        have ht : firstMatchPos pat t = none := ih.mpr (fun j => by simpa using h (j + 1))
        rw [ht]
        rfl

theorem firstMatchPos_some_spec (pat s : List Char) (k : Nat)
    (h : firstMatchPos pat s = some k) :
    pat.isPrefixOf (s.drop k) = true ∧ ∀ j, j < k → pat.isPrefixOf (s.drop j) = false := by
  induction s generalizing k with
  | nil =>
    unfold firstMatchPos at h
    by_cases hpe : pat.isEmpty = true
    · have hk : k = 0 := by simp [hpe] at h; omega
      subst hk
      have hnil : pat = [] := by cases pat <;> simp_all [List.isEmpty]
      subst hnil
      exact ⟨by simp [List.isPrefixOf], fun j hj => absurd hj (by omega)⟩
    · rw [Bool.not_eq_true] at hpe
      simp [hpe] at h
  | cons c t ih =>
    unfold firstMatchPos at h
    by_cases hpre : pat.isPrefixOf (c :: t) = true
    · simp [hpre] at h
      subst h
      exact ⟨by simpa using hpre, fun j hj => absurd hj (by omega)⟩
    · rw [Bool.not_eq_true] at hpre
      simp [hpre] at h
      rcases h with ⟨k0, hk0, hsum⟩
      subst hsum
      rcases ih k0 hk0 with ⟨hat, hbefore⟩
      refine ⟨by simpa using hat, fun j hj => ?_⟩
      cases j with
      | zero => simpa using hpre
      | succ j0 => simpa using hbefore j0 (by omega)

theorem firstMatchPos_eq_none_of_not_contains (pat s : List Char)
    (h : containsAux pat s = false) : firstMatchPos pat s = none := by
  induction s with
  | nil =>
    unfold containsAux at h
    unfold firstMatchPos
    simp [h]
  | cons c t ih =>
    unfold containsAux at h
    unfold firstMatchPos
    rw [Bool.or_eq_false_iff] at h
    simp [h.1, ih h.2]

/-- `String.mk s.data = s`, i.e. rebuilding a string from its characters is
the identity. -/
theorem mk_data_eq (s : String) : String.mk s.data = s := rfl

/-- A string whose text does not contain the pattern is left unchanged by
`jsReplaceFirst`. -/
theorem jsReplaceFirst_of_not_contains (s pat rep : String)
    (h : strContains s pat = false) : jsReplaceFirst s pat rep = s := by
  unfold jsReplaceFirst
  rw [replaceFirstAux_of_none pat.data rep.data s.data []
    (firstMatchPos_eq_none_of_not_contains pat.data s.data h)]

/-- A replacement without a dollar sign is inserted verbatim: GetSubstitution
is the identity on it. -/
theorem getSubstitution_of_no_dollar (matched pre post rep : List Char)
    (h : ('$' : Char) ∉ rep) : getSubstitution matched pre post rep = rep := by
  induction rep with
  | nil => rfl
  | cons c rest ih =>
    rw [List.mem_cons, not_or] at h
    unfold getSubstitution
    rw [if_neg (fun hc => h.1 hc.symm), ih h.2]

/-- C1, counterexample: the claim says every occurrence of `{{name}}` is
replaced by the input's name value, but on the template
`"{{name}} and {{name}}"` with name `"Ada"` the code's `String.replace`
(string pattern, first occurrence only) leaves the second `{{name}}` in
place, so the subject is not `"Ada and Ada"`; and for the name value `"$&"`
the replacement is GetSubstitution-processed (`$&` re-inserts the matched
pattern), so the literal value is not inserted either. -/
theorem subject_substitution_counterexample :
    renderSubject "\x7b\x7bname\x7d\x7d and \x7b\x7bname\x7d\x7d" "Ada" "X" =
      "Ada and \x7b\x7bname\x7d\x7d"
    ∧ renderSubject "\x7b\x7bname\x7d\x7d and \x7b\x7bname\x7d\x7d" "Ada" "X" ≠
      "Ada and Ada"
    ∧ renderSubject "\x7b\x7bname\x7d\x7d" "$&" "X" = "\x7b\x7bname\x7d\x7d"
    ∧ renderSubject "\x7b\x7bname\x7d\x7d" "$&" "X" ≠ "$&" := by
  refine ⟨rfl, by decide, rfl, by decide⟩

/-- C1, amended: the subject is the template with only the FIRST occurrence
of `{{name}}` replaced, then only the first occurrence of `{{issue}}` in
that intermediate result replaced; a template containing neither token is
returned unchanged.  The third conjunct characterises each `replace` call:
where there is no occurrence the string is unchanged, and where the first
occurrence is at position `k` (no occurrence starts earlier) exactly that
occurrence is substituted — by the GetSubstitution expansion of the input
value in general, which is the input value itself whenever it contains no
dollar sign. -/
theorem subject_substitution_first_occurrence (t n i : String) :
    renderSubject t n i = jsReplaceFirst (jsReplaceFirst t nameToken n) issueToken i
    ∧ (strContains t nameToken = false → strContains t issueToken = false →
        renderSubject t n i = t)
    ∧ ∀ (s pat rep : String),
        (firstMatchPos pat.data s.data = none → jsReplaceFirst s pat rep = s)
        ∧ ∀ k : Nat, firstMatchPos pat.data s.data = some k →
            pat.data.isPrefixOf (s.data.drop k) = true
            ∧ (∀ j, j < k → pat.data.isPrefixOf (s.data.drop j) = false)
            ∧ (jsReplaceFirst s pat rep).data =
                s.data.take k
                ++ getSubstitution pat.data (s.data.take k)
                    (s.data.drop (k + pat.data.length)) rep.data
                ++ s.data.drop (k + pat.data.length)
            ∧ (('$' : Char) ∉ rep.data →
                (jsReplaceFirst s pat rep).data =
                  s.data.take k ++ rep.data ++ s.data.drop (k + pat.data.length)) := by
  refine ⟨rfl, ?_, ?_⟩
  · intro hn hi
    unfold renderSubject
    rw [jsReplaceFirst_of_not_contains t nameToken n hn,
      jsReplaceFirst_of_not_contains t issueToken i hi]
  · intro s pat rep
    constructor
    · intro h
      unfold jsReplaceFirst
      rw [replaceFirstAux_of_none pat.data rep.data s.data [] h]
    · intro k h
      rcases firstMatchPos_some_spec pat.data s.data k h with ⟨hat, hbefore⟩
      have hsplice : (jsReplaceFirst s pat rep).data =
          s.data.take k
          ++ getSubstitution pat.data (s.data.take k)
              (s.data.drop (k + pat.data.length)) rep.data
          ++ s.data.drop (k + pat.data.length) := by
        show replaceFirstAux pat.data rep.data [] s.data = _
        rw [replaceFirstAux_of_some pat.data rep.data s.data k [] h]
        simp
      refine ⟨hat, hbefore, hsplice, fun hd => ?_⟩
      rw [hsplice, getSubstitution_of_no_dollar _ _ _ _ hd]

/-! ## Lemmas on the schema shape -/

theorem lookup_map_update_self (m : List (String × FieldSchema)) (k : String) (v : FieldSchema)
    (hmem : m.any (fun p => p.1 == k) = true) :
    (m.map (fun p => if p.1 == k then (k, v) else p)).lookup k = some v := by
  induction m with
  | nil => simp at hmem
  | cons p rest ih =>
    obtain ⟨pk, pv⟩ := p
    rw [List.map_cons]
    by_cases hp : pk = k
    · subst hp
      rw [if_pos (by simp), List.lookup_cons]
      simp
    · have hpb := beq_false_of_ne hp
      have hkb := beq_false_of_ne (Ne.symm hp)
      rw [if_neg (by simp [hpb]), List.lookup_cons, hkb]
      have hmem2 : rest.any (fun p => p.1 == k) = true := by
        simpa [List.any_cons, hpb] using hmem
      exact ih hmem2

theorem lookup_map_update_ne (m : List (String × FieldSchema)) (k : String) (v : FieldSchema)
    (q : String) (h : q ≠ k) :
    (m.map (fun p => if p.1 == k then (k, v) else p)).lookup q = m.lookup q := by
  induction m with
  | nil => simp
  | cons p rest ih =>
    obtain ⟨pk, pv⟩ := p
    rw [List.map_cons]
    by_cases hp : pk = k
    · subst hp
      rw [if_pos (by simp), List.lookup_cons, List.lookup_cons, beq_false_of_ne h]
      exact ih
    · rw [if_neg (by simp [beq_false_of_ne hp]), List.lookup_cons, List.lookup_cons]
      cases hq2 : (q == pk)
      · exact ih
      · rfl

theorem lookup_append_single_self (m : List (String × FieldSchema)) (k : String) (v : FieldSchema)
    (hmem : m.any (fun p => p.1 == k) = false) :
    (m ++ [(k, v)]).lookup k = some v := by
  induction m with
  | nil =>
    rw [List.nil_append, List.lookup_cons]
    simp
  | cons p rest ih =>
    rw [List.any_cons, Bool.or_eq_false_iff] at hmem
    obtain ⟨pk, pv⟩ := p
    rw [List.cons_append, List.lookup_cons]
    have hkb : (k == pk) = false :=
      beq_false_of_ne (fun hEq => (beq_eq_false_iff_ne.mp hmem.1) hEq.symm)
    rw [hkb]
    exact ih hmem.2

theorem lookup_append_single_ne (m : List (String × FieldSchema)) (k : String) (v : FieldSchema)
    (q : String) (h : q ≠ k) :
    (m ++ [(k, v)]).lookup q = m.lookup q := by
  induction m with
  | nil =>
    rw [List.nil_append, List.lookup_cons, beq_false_of_ne h]
  | cons p rest ih =>
    obtain ⟨pk, pv⟩ := p
    rw [List.cons_append, List.lookup_cons, List.lookup_cons]
    cases hq2 : (q == pk)
    · exact ih
    · rfl

theorem lookup_shapeSet_self (m : List (String × FieldSchema)) (k : String) (v : FieldSchema) :
    (shapeSet m k v).lookup k = some v := by
  unfold shapeSet
  by_cases hmem : m.any (fun p => p.1 == k) = true
  · rw [if_pos hmem]
    exact lookup_map_update_self m k v hmem
  · rw [Bool.not_eq_true] at hmem
    rw [if_neg (by simp [hmem])]
    exact lookup_append_single_self m k v hmem

theorem lookup_shapeSet_ne (m : List (String × FieldSchema)) (k : String) (v : FieldSchema)
    (q : String) (h : q ≠ k) : (shapeSet m k v).lookup q = m.lookup q := by
  unfold shapeSet
  by_cases hmem : m.any (fun p => p.1 == k) = true
  · rw [if_pos hmem]
    exact lookup_map_update_ne m k v q h
  · rw [Bool.not_eq_true] at hmem
    rw [if_neg (by simp [hmem])]
    exact lookup_append_single_ne m k v q h

/-- The custom-field fold of `buildInputSchema`, abstracted over the start
shape. -/
def shapeFold (fs : List FieldConfig) (m : List (String × FieldSchema)) :
    List (String × FieldSchema) :=
  fs.foldl (fun m f => shapeSet m f.key { required := f.required, description := f.label }) m

theorem buildInputSchema_eq_shapeFold (config : AppConfig) :
    buildInputSchema config = shapeFold config.customFields
      [("name", { required := true, description := "Full name of the customer" }),
       ("issue", { required := true, description := "Description of the customer\x27s issue" }),
       ("priority", { required := false, description := "Ticket priority level (" ++ String.intercalate ", " config.priorities ++ ")" }),
       ("category", { required := false, description := "Issue category (" ++ String.intercalate ", " config.categories ++ ")" })] := rfl

theorem lookup_shapeFold_of_not_mem (fs : List FieldConfig) (m : List (String × FieldSchema))
    (k : String) (h : ∀ f ∈ fs, f.key ≠ k) :
    (shapeFold fs m).lookup k = m.lookup k := by
  induction fs generalizing m with
  | nil => rfl
  | cons g rest ih =>
    unfold shapeFold
    rw [List.foldl_cons]
    have hg : k ≠ g.key := fun hEq => (h g (by simp)) hEq.symm
    calc (shapeFold rest (shapeSet m g.key { required := g.required, description := g.label })).lookup k
        = (shapeSet m g.key { required := g.required, description := g.label }).lookup k :=
          ih _ (fun f hf => h f (by simp [hf]))
      _ = m.lookup k := lookup_shapeSet_ne m g.key _ k hg

theorem lookup_shapeFold_of_mem (fs : List FieldConfig) (m : List (String × FieldSchema))
    (f : FieldConfig) (hmem : f ∈ fs)
    (hdist : fs.Pairwise (fun a b => a.key ≠ b.key)) :
    (shapeFold fs m).lookup f.key = some { required := f.required, description := f.label } := by
  induction fs generalizing m with
  | nil => simp at hmem
  | cons g rest ih =>
    rw [List.pairwise_cons] at hdist
    unfold shapeFold
    rw [List.foldl_cons]
    rcases List.mem_cons.mp hmem with hfg | hfrest
    · subst hfg
      calc (shapeFold rest (shapeSet m f.key { required := f.required, description := f.label })).lookup f.key
          = (shapeSet m f.key { required := f.required, description := f.label }).lookup f.key :=
            lookup_shapeFold_of_not_mem rest _ f.key (fun b hb => (hdist.1 b hb).symm)
        _ = some { required := f.required, description := f.label } := lookup_shapeSet_self m f.key _
    · exact ih _ hfrest hdist.2

/-- C2, counterexample: the claim covers configs whose customFields list has
an entry keyed "name", but for such a config the custom-field loop of
`buildInputSchema` overwrites the fixed required `name` entry, making `name`
an optional field described by the custom label. -/
theorem schema_fixed_fields_counterexample :
    (buildInputSchema { defaultConfig with customFields := [{
        key := "name"
        label := "Customer Name"
        type := FieldType.text
        placeholder := ""
        required := false }] }).lookup "name"
      = some { required := false, description := "Customer Name" } := by
  decide

/-- C2, amended: for every EffectiveConfig whose custom-field keys are
pairwise distinct and none of which is one of the reserved keys `name`,
`issue`, `priority` or `category`, the schema maps `name` and `issue` to
required string fields, maps `priority` and `category` to optional string
fields whose descriptions enumerate the configured allowed values, and maps
each custom field key per that field's required flag with its label as the
description.  (A custom field using a reserved key instead overwrites the
fixed entry, as the counterexample shows.) -/
theorem schema_fields_of_reserved_free (c : AppConfig)
    (hdist : c.customFields.Pairwise (fun a b => a.key ≠ b.key))
    (hres : ∀ f ∈ c.customFields,
      f.key ≠ "name" ∧ f.key ≠ "issue" ∧ f.key ≠ "priority" ∧ f.key ≠ "category") :
    (buildInputSchema c).lookup "name" =
      some { required := true, description := "Full name of the customer" }
    ∧ (buildInputSchema c).lookup "issue" =
      some { required := true, description := "Description of the customer\x27s issue" }
    ∧ (buildInputSchema c).lookup "priority" =
      some { required := false, description := "Ticket priority level (" ++ String.intercalate ", " c.priorities ++ ")" }
    ∧ (buildInputSchema c).lookup "category" =
      some { required := false, description := "Issue category (" ++ String.intercalate ", " c.categories ++ ")" }
    ∧ ∀ f ∈ c.customFields, (buildInputSchema c).lookup f.key =
        some { required := f.required, description := f.label } := by
  refine ⟨?_, ?_, ?_, ?_, ?_⟩
  · rw [buildInputSchema_eq_shapeFold,
      lookup_shapeFold_of_not_mem _ _ _ (fun f hf => (hres f hf).1)]
    rfl
  · rw [buildInputSchema_eq_shapeFold,
      lookup_shapeFold_of_not_mem _ _ _ (fun f hf => (hres f hf).2.1)]
    rfl
  · rw [buildInputSchema_eq_shapeFold,
      lookup_shapeFold_of_not_mem _ _ _ (fun f hf => (hres f hf).2.2.1)]
    rfl
  · rw [buildInputSchema_eq_shapeFold,
      lookup_shapeFold_of_not_mem _ _ _ (fun f hf => (hres f hf).2.2.2)]
    rfl
  · intro f hf
    rw [buildInputSchema_eq_shapeFold]
    exact lookup_shapeFold_of_mem _ _ f hf hdist

/-- C2, witness: the amended theorem applied to the built-in default config
(one custom field keyed "email"), with every definition evaluated. -/
theorem schema_fields_of_reserved_free_witness :
    (buildInputSchema defaultConfig).lookup "name" =
      some { required := true, description := "Full name of the customer" }
    ∧ (buildInputSchema defaultConfig).lookup "issue" =
      some { required := true, description := "Description of the customer\x27s issue" }
    ∧ (buildInputSchema defaultConfig).lookup "priority" =
      some { required := false, description := "Ticket priority level (Low, Medium, High, Urgent)" }
    ∧ (buildInputSchema defaultConfig).lookup "category" =
      some { required := false, description := "Issue category (General Inquiry, Technical Support, Billing, Feature Request, Bug Report)" }
    ∧ (buildInputSchema defaultConfig).lookup "email" =
      some { required := false, description := "Email Address" } := by
  have h := schema_fields_of_reserved_free defaultConfig (by decide) (by decide)
  refine ⟨h.1, h.2.1, h.2.2.1.trans rfl, h.2.2.2.1.trans rfl, ?_⟩
  exact h.2.2.2.2 { key := "email", label := "Email Address", type := FieldType.email, placeholder := "you@example.com", required := false } (by decide)

/-- C4: the Config Resolver's merge.  Top-level scalar/array keys present in
the override replace the default wholly and otherwise fall through; the
`brand` and `smtp` objects and the nested credential pair merge key-by-key
with override keys winning; in particular an override setting only
`brand.name` leaves `brand.primaryColor`, the whole smtp section and every
other key at its default. -/
theorem config_merge_per_key (d : AppConfig) (o : ConfigOverrides) :
    (mergeConfig d o).supportEmail = o.supportEmail.getD d.supportEmail
    ∧ (mergeConfig d o).emailSubjectTemplate = o.emailSubjectTemplate.getD d.emailSubjectTemplate
    ∧ (mergeConfig d o).customFields = o.customFields.getD d.customFields
    ∧ (mergeConfig d o).priorities = o.priorities.getD d.priorities
    ∧ (mergeConfig d o).categories = o.categories.getD d.categories
    ∧ (mergeConfig d o).brand.name = (o.brand.bind BrandOverride.name).getD d.brand.name
    ∧ (mergeConfig d o).brand.primaryColor =
        (o.brand.bind BrandOverride.primaryColor).getD d.brand.primaryColor
    ∧ (mergeConfig d o).smtp.host = (o.smtp.bind SmtpOverride.host).getD d.smtp.host
    ∧ (mergeConfig d o).smtp.port = (o.smtp.bind SmtpOverride.port).getD d.smtp.port
    ∧ (mergeConfig d o).smtp.secure = (o.smtp.bind SmtpOverride.secure).getD d.smtp.secure
    ∧ (mergeConfig d o).smtp.auth.user =
        ((o.smtp.bind SmtpOverride.auth).bind AuthOverride.user).getD d.smtp.auth.user
    ∧ (mergeConfig d o).smtp.auth.pass =
        ((o.smtp.bind SmtpOverride.auth).bind AuthOverride.pass).getD d.smtp.auth.pass
    ∧ ∀ n : String,
        mergeConfig d { brand := some { name := some n } } =
          { d with brand := { d.brand with name := n } } := by
  refine ⟨rfl, rfl, rfl, rfl, rfl, rfl, rfl, rfl, rfl, rfl, rfl, rfl, fun n => rfl⟩

/-! ## Concrete fixtures used by the witnesses -/

/-- A transport that always delivers. -/
def okTransport : Transport := fun _ _ => Except.ok ()

/-- A transport that always raises, with a fixed failure message. -/
def refusedTransport : Transport := fun _ _ => Except.error "SMTP connection refused"

/-- The empty submission (every key `undefined`). -/
def emptyInput : TicketInput := fun _ => none

/-- The spec's scenario-A submission. -/
def adaInput : TicketInput := fun k =>
  if k = "name" then some "Ada" else if k = "issue" then some "Login broken" else none

/-- The spec's scenario-C submission, carrying the `email` custom field. -/
def adaEmailInput : TicketInput := fun k =>
  if k = "name" then some "Ada"
  else if k = "issue" then some "Login broken"
  else if k = "email" then some "ada@example.com" else none

/-- A submission whose priority and category are supplied as empty strings. -/
def emptyMetaInput : TicketInput := fun k =>
  if k = "name" then some "Ada"
  else if k = "issue" then some "Help"
  else if k = "priority" then some ""
  else if k = "category" then some "" else none

/-- A submission where only the priority (and the `email` custom field) is
supplied as the empty string, while the category carries a value. -/
def mixedMetaInput : TicketInput := fun k =>
  if k = "name" then some "Ada"
  else if k = "issue" then some "Help"
  else if k = "priority" then some ""
  else if k = "category" then some "High"
  else if k = "email" then some "" else none

/-- The default config with a non-empty credential pair. -/
def configuredConfig : AppConfig :=
  { defaultConfig with
    smtp := { defaultConfig.smtp with auth := { user := "ops@example.com", pass := "secret" } } }

/-! ## Lemmas on the Delivery Dispatcher and the endpoint -/

theorem isEmpty_false_of_ne (s : String) (h : s ≠ "") : s.isEmpty = false := by
  cases hb : s.isEmpty
  · rfl
  · exact absurd ((String.isEmpty_iff s).mp hb) h

theorem sendSupportEmail_unconfigured (transport : Transport) (fields : TicketInput)
    (config : AppConfig) (h : config.smtp.auth.user = "" ∨ config.smtp.auth.pass = "") :
    sendSupportEmail transport fields config =
      ({ consoleLines := previewLines fields config, sends := [] },
       Except.ok { success := true, message := recordedMessage }) := by
  have h0 : ("" : String).isEmpty = true := rfl
  have hcond : (config.smtp.auth.user.isEmpty || config.smtp.auth.pass.isEmpty) = true := by
    rcases h with h | h <;> rw [h] <;> simp [h0]
  unfold sendSupportEmail
  rw [if_pos hcond]

theorem sendSupportEmail_configured_ok (transport : Transport) (fields : TicketInput)
    (config : AppConfig)
    (hu : config.smtp.auth.user ≠ "") (hp : config.smtp.auth.pass ≠ "")
    (ht : transport (transportConfigOf config) (messageOf fields config) = Except.ok ()) :
    sendSupportEmail transport fields config =
      ({ consoleLines := [], sends := [(transportConfigOf config, messageOf fields config)] },
       Except.ok { success := true, message := sentMessage }) := by
  have hcond : (config.smtp.auth.user.isEmpty || config.smtp.auth.pass.isEmpty) = false := by
    rw [isEmpty_false_of_ne _ hu, isEmpty_false_of_ne _ hp]
    rfl
  unfold sendSupportEmail
  rw [if_neg (by simp [hcond]), ht]

theorem sendSupportEmail_configured_error (transport : Transport) (fields : TicketInput)
    (config : AppConfig) (e : String)
    (hu : config.smtp.auth.user ≠ "") (hp : config.smtp.auth.pass ≠ "")
    (ht : transport (transportConfigOf config) (messageOf fields config) = Except.error e) :
    sendSupportEmail transport fields config =
      ({ consoleLines := [], sends := [(transportConfigOf config, messageOf fields config)] },
       Except.error e) := by
  have hcond : (config.smtp.auth.user.isEmpty || config.smtp.auth.pass.isEmpty) = false := by
    rw [isEmpty_false_of_ne _ hu, isEmpty_false_of_ne _ hp]
    rfl
  unfold sendSupportEmail
  rw [if_neg (by simp [hcond]), ht]

theorem sendSupportEmail_ok_success (transport : Transport) (fields : TicketInput)
    (config : AppConfig) (r : DeliveryOutcome)
    (h : (sendSupportEmail transport fields config).2 = Except.ok r) : r.success = true := by
  unfold sendSupportEmail at h
  by_cases hc : (config.smtp.auth.user.isEmpty || config.smtp.auth.pass.isEmpty) = true
  · rw [if_pos hc] at h
    have h2 : Except.ok (ε := String) { success := true, message := recordedMessage } =
        Except.ok r := h
    cases h2
    rfl
  · rw [if_neg hc] at h
    cases ht : transport (transportConfigOf config) (messageOf fields config) with
    | ok u =>
      rw [ht] at h
      have h2 : Except.ok (ε := String) { success := true, message := sentMessage } =
          Except.ok r := h
      cases h2
      rfl
    | error e =>
      rw [ht] at h
      exact absurd h (by simp)

theorem handleCustomerSupport_eq_of_ok (transport : Transport) (now : String)
    (fields : TicketInput) (config : AppConfig) (r : DeliveryOutcome)
    (h : (sendSupportEmail transport fields config).2 = Except.ok r) :
    handleCustomerSupport transport now fields config =
      ((sendSupportEmail transport fields config).1,
       { payload := {
           status := "ok"
           message := r.message
           ticket := some {
             name := fields "name"
             issue := fields "issue"
             priority := (fields "priority").getD "Medium"
             category := (fields "category").getD "General Inquiry"
             timestamp := now } }
         isError := false }) := by
  have hs := sendSupportEmail_ok_success transport fields config r h
  unfold handleCustomerSupport
  cases hp : sendSupportEmail transport fields config with
  | mk tr r2 =>
    have h2 : r2 = Except.ok r := by rw [hp] at h; exact h
    subst h2
    simp [hs]

theorem handleCustomerSupport_eq_of_error (transport : Transport) (now : String)
    (fields : TicketInput) (config : AppConfig) (e : String)
    (h : (sendSupportEmail transport fields config).2 = Except.error e) :
    handleCustomerSupport transport now fields config =
      ((sendSupportEmail transport fields config).1,
       { payload := { status := "error", message := e, ticket := none }
         isError := true }) := by
  unfold handleCustomerSupport
  cases hp : sendSupportEmail transport fields config with
  | mk tr r2 =>
    have h2 : r2 = Except.error e := by rw [hp] at h; exact h
    subst h2
    simp

/-! ## Lemmas on the Ticket Composer -/

theorem foldl_push_truthy (fields : TicketInput) (fs : List FieldConfig) (acc : List String) :
    fs.foldl
      (fun acc f =>
        if jsTruthy (fields f.key) then acc ++ [f.label ++ ": " ++ jsStr (fields f.key)]
        else acc) acc
      = acc ++ (fs.map (fun f => optLine f.label (fields f.key))).flatten := by
  induction fs generalizing acc with
  | nil => simp
  | cons g rest ih =>
    rw [List.foldl_cons, List.map_cons, List.flatten_cons]
    by_cases hg : jsTruthy (fields g.key) = true
    · simp [hg, optLine, ih, List.append_assoc]
    · rw [Bool.not_eq_true] at hg
      simp [hg, optLine, ih]

theorem buildEmailBodyLines_eq (fields : TicketInput) (config : AppConfig) :
    buildEmailBodyLines fields config = bodyLinesSpec fields config := by
  unfold buildEmailBodyLines bodyLinesSpec customFieldLines
  by_cases hp : jsTruthy (fields "priority") = true <;>
    by_cases hc : jsTruthy (fields "category") = true <;>
    simp [hp, hc, optLine, foldl_push_truthy, List.append_assoc]

/-! ## Claim theorems on composer, dispatcher and endpoint -/

/-- C5: the composed body is, in this fixed order, the brand header, a
separator, the name line, the issue line, a priority line only if present, a
category line only if present, one label-and-value line per custom field in
declared order but only for present values, and the closing separator;
every line of the custom-field section comes from a custom field whose value
is present, and a custom field whose value is absent or empty contributes no
line. -/
theorem body_lines_fixed_order (fields : TicketInput) (config : AppConfig) :
    buildEmailBody fields config = String.intercalate "\n" (bodyLinesSpec fields config)
    ∧ (∀ l ∈ customFieldLines fields config, ∃ f, f ∈ config.customFields
        ∧ jsTruthy (fields f.key) = true ∧ l = f.label ++ ": " ++ jsStr (fields f.key))
    ∧ (∀ f ∈ config.customFields, jsTruthy (fields f.key) = false →
        optLine f.label (fields f.key) = []) := by
  refine ⟨?_, ?_, ?_⟩
  · unfold buildEmailBody
    rw [buildEmailBodyLines_eq]
  · intro l hl
    unfold customFieldLines at hl
    rw [List.mem_flatten] at hl
    rcases hl with ⟨ls, hls, hlmem⟩
    rw [List.mem_map] at hls
    rcases hls with ⟨f, hf, rfl⟩
    by_cases ht : jsTruthy (fields f.key) = true
    · refine ⟨f, hf, ht, ?_⟩
      unfold optLine at hlmem
      rw [if_pos ht] at hlmem
      simpa using hlmem
    · rw [Bool.not_eq_true] at ht
      unfold optLine at hlmem
      rw [if_neg (by simp [ht])] at hlmem
      simp at hlmem
  · intro f hf hfalse
    unfold optLine
    rw [if_neg (by simp [hfalse])]

/-- C3: with an empty (or unset) credential user or pass, the dispatcher
performs no transport send, returns success, and its message — the fixed
recorded-but-not-delivered text — contains "recorded". -/
theorem unconfigured_delivery_records (transport : Transport) (fields : TicketInput)
    (config : AppConfig)
    (h : config.smtp.auth.user = "" ∨ config.smtp.auth.pass = "") :
    (sendSupportEmail transport fields config).1.sends = []
    ∧ (sendSupportEmail transport fields config).2 =
        Except.ok { success := true, message := recordedMessage }
    ∧ strContains recordedMessage "recorded" = true := by
  rw [sendSupportEmail_unconfigured transport fields config h]
  exact ⟨rfl, rfl, by decide⟩

/-- C3, witness: the theorem at the built-in default config (empty
credentials), an always-delivering transport and the empty submission. -/
theorem unconfigured_delivery_records_witness :
    (sendSupportEmail okTransport emptyInput defaultConfig).1.sends = []
    ∧ (sendSupportEmail okTransport emptyInput defaultConfig).2 =
        Except.ok { success := true, message := recordedMessage }
    ∧ strContains recordedMessage "recorded" = true :=
  unconfigured_delivery_records okTransport emptyInput defaultConfig (Or.inl rfl)

/-- C6: any exception raised during dispatch is not propagated: the endpoint
returns a payload with status "error" whose message equals the raised
exception's message, flagged as an error response. -/
theorem exception_returned_as_error_payload (transport : Transport) (now : String)
    (fields : TicketInput) (config : AppConfig) (e : String)
    (h : (sendSupportEmail transport fields config).2 = Except.error e) :
    (handleCustomerSupport transport now fields config).2 =
      { payload := { status := "error", message := e, ticket := none }
        isError := true } := by
  rw [handleCustomerSupport_eq_of_error transport now fields config e h]

/-- C6, witness: non-empty credentials and a transport that raises "SMTP
connection refused"; the returned payload carries exactly that message. -/
theorem exception_returned_as_error_payload_witness :
    (handleCustomerSupport refusedTransport "2026-01-01T00:00:00.000Z" emptyInput
        configuredConfig).2 =
      { payload := { status := "error", message := "SMTP connection refused", ticket := none }
        isError := true } :=
  exception_returned_as_error_payload refusedTransport "2026-01-01T00:00:00.000Z" emptyInput
    configuredConfig "SMTP connection refused" rfl

/-- C7: on a successfully dispatched submission the endpoint returns status
"ok" and echoes the submitted name and issue, the priority defaulted to
"Medium" when absent, the category defaulted to "General Inquiry" when
absent, and the server-generated timestamp. -/
theorem success_payload_echoes_ticket (transport : Transport) (now : String)
    (fields : TicketInput) (config : AppConfig) (r : DeliveryOutcome)
    (h : (sendSupportEmail transport fields config).2 = Except.ok r) :
    (handleCustomerSupport transport now fields config).2 =
      { payload := {
          status := "ok"
          message := r.message
          ticket := some {
            name := fields "name"
            issue := fields "issue"
            priority := (fields "priority").getD "Medium"
            category := (fields "category").getD "General Inquiry"
            timestamp := now } }
        isError := false } := by
  rw [handleCustomerSupport_eq_of_ok transport now fields config r h]

/-- C7, witness: the spec's scenario A — Ada's ticket against the default
(unconfigured) config yields status ok, the recorded message and the
defaulted priority/category echo. -/
theorem success_payload_echoes_ticket_witness :
    (handleCustomerSupport okTransport "2026-01-01T00:00:00.000Z" adaInput defaultConfig).2 =
      { payload := {
          status := "ok"
          message := recordedMessage
          ticket := some {
            name := some "Ada"
            issue := some "Login broken"
            priority := "Medium"
            category := "General Inquiry"
            timestamp := "2026-01-01T00:00:00.000Z" } }
        isError := false } :=
  success_payload_echoes_ticket okTransport "2026-01-01T00:00:00.000Z" adaInput defaultConfig
    { success := true, message := recordedMessage } rfl

/-- C8: with a non-empty credential pair and a transport that accepts the
message, the dispatcher makes exactly one send over the configured endpoint,
addressed to the configured recipient, from the credential user, with the
submitted non-empty `email` custom field as reply-to, and returns the fixed
success message. -/
theorem configured_delivery_single_send (transport : Transport) (fields : TicketInput)
    (config : AppConfig)
    (hu : config.smtp.auth.user ≠ "") (hp : config.smtp.auth.pass ≠ "")
    (ht : transport (transportConfigOf config) (messageOf fields config) = Except.ok ()) :
    (sendSupportEmail transport fields config).1.sends =
      [(transportConfigOf config, messageOf fields config)]
    ∧ (sendSupportEmail transport fields config).2 =
        Except.ok { success := true, message := sentMessage }
    ∧ (messageOf fields config).toAddr = config.supportEmail
    ∧ (messageOf fields config).fromAddr = config.smtp.auth.user
    ∧ ∀ v : String, fields "email" = some v → v ≠ "" →
        (messageOf fields config).replyTo = some v := by
  rw [sendSupportEmail_configured_ok transport fields config hu hp ht]
  refine ⟨rfl, rfl, rfl, rfl, ?_⟩
  intro v hv hvne
  unfold messageOf
  simp [jsTruthy, hv, isEmpty_false_of_ne v hvne]

/-- C8, witness: the spec's scenario C — configured credentials, accepting
transport, submission carrying `email`; exactly one send with the configured
recipient and the submitted reply-to. -/
theorem configured_delivery_single_send_witness :
    (sendSupportEmail okTransport adaEmailInput configuredConfig).1.sends =
      [(transportConfigOf configuredConfig, messageOf adaEmailInput configuredConfig)]
    ∧ (sendSupportEmail okTransport adaEmailInput configuredConfig).2 =
        Except.ok { success := true, message := sentMessage }
    ∧ (messageOf adaEmailInput configuredConfig).toAddr = configuredConfig.supportEmail
    ∧ (messageOf adaEmailInput configuredConfig).fromAddr = configuredConfig.smtp.auth.user
    ∧ (messageOf adaEmailInput configuredConfig).replyTo = some "ada@example.com" := by
  have h := configured_delivery_single_send okTransport adaEmailInput configuredConfig
    (by decide) (by decide) rfl
  exact ⟨h.1, h.2.1, h.2.2.1, h.2.2.2.1, h.2.2.2.2 "ada@example.com" rfl (by decide)⟩

/-- C9 (spec-modelled channels): on the unconfigured-delivery path the
human-readable preview goes to the operator channel (the console lines), and
the protocol channel carries exactly the structured payload; the preview is
never part of the protocol response. -/
theorem preview_on_operator_channel_only (transport : Transport) (now : String)
    (fields : TicketInput) (config : AppConfig)
    (h : config.smtp.auth.user = "" ∨ config.smtp.auth.pass = "") :
    operatorChannel (handleCustomerSupport transport now fields config) =
      previewLines fields config
    ∧ protocolChannel (handleCustomerSupport transport now fields config) =
        { payload := {
            status := "ok"
            message := recordedMessage
            ticket := some {
              name := fields "name"
              issue := fields "issue"
              priority := (fields "priority").getD "Medium"
              category := (fields "category").getD "General Inquiry"
              timestamp := now } }
          isError := false } := by
  have hok : (sendSupportEmail transport fields config).2 =
      Except.ok { success := true, message := recordedMessage } := by
    rw [sendSupportEmail_unconfigured transport fields config h]
  constructor
  · unfold operatorChannel
    rw [handleCustomerSupport_eq_of_ok transport now fields config _ hok]
    rw [sendSupportEmail_unconfigured transport fields config h]
  · unfold protocolChannel
    rw [handleCustomerSupport_eq_of_ok transport now fields config _ hok]

/-- C9, witness: the theorem at the default (unconfigured) config with the
empty submission. -/
theorem preview_on_operator_channel_only_witness :
    operatorChannel (handleCustomerSupport okTransport "2026-01-01T00:00:00.000Z" emptyInput
        defaultConfig) = previewLines emptyInput defaultConfig
    ∧ protocolChannel (handleCustomerSupport okTransport "2026-01-01T00:00:00.000Z" emptyInput
        defaultConfig) =
        { payload := {
            status := "ok"
            message := recordedMessage
            ticket := some {
              name := none
              issue := none
              priority := "Medium"
              category := "General Inquiry"
              timestamp := "2026-01-01T00:00:00.000Z" } }
          isError := false } :=
  preview_on_operator_channel_only okTransport "2026-01-01T00:00:00.000Z" emptyInput
    defaultConfig (Or.inl rfl)

/-- C10: independently for each of priority, category and any custom field,
a value supplied as the empty string is omitted from the body exactly as
when the key is absent — the field's line function yields `[]` in both the
empty-string and the absent case, and the body equals the structure without
that field's line — while the success echo does not apply the default to it:
it returns the empty string instead of "Medium" / "General Inquiry". -/
theorem empty_string_fields_composer_vs_echo (transport : Transport) (now : String)
    (fields : TicketInput) (config : AppConfig) :
    (fields "priority" = some "" → optLine "Priority" (fields "priority") = [])
    ∧ optLine "Priority" (none : Option String) = []
    ∧ (fields "category" = some "" → optLine "Category" (fields "category") = [])
    ∧ optLine "Category" (none : Option String) = []
    ∧ (∀ f ∈ config.customFields, fields f.key = some "" →
        optLine f.label (fields f.key) = [])
    ∧ (fields "priority" = some "" →
        buildEmailBody fields config = String.intercalate "\n"
          (["New support ticket received via " ++ config.brand.name, "",
            "--- Ticket Details ---", "",
            "Name: " ++ jsStr (fields "name"),
            "Issue: " ++ jsStr (fields "issue")]
           ++ optLine "Category" (fields "category")
           ++ customFieldLines fields config ++ ["", "--- End of Ticket ---"]))
    ∧ (fields "category" = some "" →
        buildEmailBody fields config = String.intercalate "\n"
          (["New support ticket received via " ++ config.brand.name, "",
            "--- Ticket Details ---", "",
            "Name: " ++ jsStr (fields "name"),
            "Issue: " ++ jsStr (fields "issue")]
           ++ optLine "Priority" (fields "priority")
           ++ customFieldLines fields config ++ ["", "--- End of Ticket ---"]))
    ∧ ∀ r : DeliveryOutcome, (sendSupportEmail transport fields config).2 = Except.ok r →
        (fields "priority" = some "" →
          ((handleCustomerSupport transport now fields config).2.payload.ticket.map
            TicketEcho.priority) = some "")
        ∧ (fields "category" = some "" →
          ((handleCustomerSupport transport now fields config).2.payload.ticket.map
            TicketEcho.category) = some "") := by
  have hT : jsTruthy (some "") = false := rfl
  refine ⟨?_, rfl, ?_, rfl, ?_, ?_, ?_, ?_⟩
  · intro h
    rw [h]
    unfold optLine
    rw [if_neg (by simp [hT])]
  · intro h
    rw [h]
    unfold optLine
    rw [if_neg (by simp [hT])]
  · intro f hf hempty
    rw [hempty]
    unfold optLine
    rw [if_neg (by simp [hT])]
  · intro h
    unfold buildEmailBody
    rw [buildEmailBodyLines_eq]
    unfold bodyLinesSpec
    rw [h]
    simp [optLine, hT, List.append_assoc]
  · intro h
    unfold buildEmailBody
    rw [buildEmailBodyLines_eq]
    unfold bodyLinesSpec
    rw [h]
    simp [optLine, hT, List.append_assoc]
  · intro r hr
    constructor
    · intro h
      rw [handleCustomerSupport_eq_of_ok transport now fields config r hr, h]
      rfl
    · intro h
      rw [handleCustomerSupport_eq_of_ok transport now fields config r hr, h]
      rfl

/-- C10, witness: a submission in which only the priority and the `email`
custom field are empty strings while the category carries "High": the
priority and email lines vanish, the body keeps the category line, and the
echoed priority is "" rather than "Medium". -/
theorem empty_string_fields_composer_vs_echo_witness :
    optLine "Priority" (mixedMetaInput "priority") = []
    ∧ optLine "Email Address" (mixedMetaInput "email") = []
    ∧ buildEmailBody mixedMetaInput defaultConfig = String.intercalate "\n"
        (["New support ticket received via " ++ defaultConfig.brand.name, "",
          "--- Ticket Details ---", "",
          "Name: " ++ jsStr (mixedMetaInput "name"),
          "Issue: " ++ jsStr (mixedMetaInput "issue")]
         ++ optLine "Category" (mixedMetaInput "category")
         ++ customFieldLines mixedMetaInput defaultConfig ++ ["", "--- End of Ticket ---"])
    ∧ ((handleCustomerSupport okTransport "2026-01-01T00:00:00.000Z" mixedMetaInput
        defaultConfig).2.payload.ticket.map TicketEcho.priority) = some "" := by
  have h := empty_string_fields_composer_vs_echo okTransport "2026-01-01T00:00:00.000Z"
    mixedMetaInput defaultConfig
  refine ⟨h.1 rfl, ?_, h.2.2.2.2.2.1 rfl,
    (h.2.2.2.2.2.2.2 { success := true, message := recordedMessage } rfl).1 rfl⟩
  exact h.2.2.2.2.1 { key := "email", label := "Email Address", type := FieldType.email, placeholder := "you@example.com", required := false } (by decide) rfl

end CustomerService
